import Mathlib

/-! Shallow embedding of the structured call-recording subsystem implemented in
`packages/core/quri_parts/core/utils/recording.py`, together with proofs about
its behaviour.

Modelling conventions:

* Record keys (`Hashable` in the source) are instantiated at `String` and
  record values (`Any`) at `Int`; the recording code never inspects either.
* The `_loggers` set and `_log` only drive external sink output and never
  change any recording state; they are omitted from the state.
* Python aliasing of `RecordGroup` objects (the same object sits in a
  session's history list and on its group stack) is modelled by keeping group
  ids on the stack and locating the group in the history by id; ids are
  unique within a single-threaded execution because they come from a monotone
  counter.
* Exceptions are modelled by `PyOutcome`: module-level state always survives
  an exception, together with the in-flight exception, matching Python where
  raising unwinds control but leaves module globals as they are.
* The embedding is single-threaded: `_group_id` is a `threading.local`
  initialised (for the importing thread) to `0`, so the counter is one
  global `Nat`.
-/

/-- Levels of recording: `RecordLevel(IntEnum)` with `INFO = 20`, `DEBUG = 10`. -/
inductive RecordLevel where
  | DEBUG
  | INFO
deriving DecidableEq, Repr

/-- Numeric value of a record level; `IntEnum` comparisons in the source are
comparisons of these integer values. -/
def RecordLevel.value : RecordLevel → Nat
  | .DEBUG => 10
  | .INFO => 20

/-- `RecordableFunctionId`: module name, qualified name and the extra `param`
(currently always the empty tuple in the source, hence `Unit`). -/
structure RecordableFunctionId where
  module : String
  qualname : String
  param : Unit
deriving DecidableEq, Repr

/-- `RecordableFunction`: the wrapped function value, exposing its `id`
attribute (set by the `recordable` decorator). -/
structure RecordableFunction where
  id : RecordableFunctionId
deriving DecidableEq, Repr

/-- `RecordEntry`: level, function id and the `(key, value)` data pair. -/
structure RecordEntry where
  level : RecordLevel
  func_id : RecordableFunctionId
  data : String × Int
deriving DecidableEq, Repr

/-- `RecordGroup`: function id, entry list, and the id drawn from
`_next_group_id` (the `default_factory` of the `id` field). -/
structure RecordGroup where
  func_id : RecordableFunctionId
  entries : List RecordEntry
  id : Nat
deriving DecidableEq, Repr

/-- `RecordSet`: wraps the `_history` list of groups. -/
structure RecordSet where
  history : List RecordGroup
deriving DecidableEq, Repr

/-- `RecordSession` state: `_levels` (a dict, modelled as an association list
with first-match lookup and in-place overwrite), `_record_set`, and
`_group_stack` (ids of the currently open groups; the top of the Python stack
is the last element of the list). The `_loggers` set is omitted (sink output
only). -/
structure RecordSession where
  levels : List (RecordableFunctionId × RecordLevel)
  record_set : RecordSet
  group_stack : List Nat
deriving DecidableEq, Repr

/-- Module-level state: every session object ever created (a session object is
identified by its index in `sessions`), `_active_sessions` as a list of such
indices, the thread-local counter `_group_id.current`, and `createdIds`, a
specification-only trace of the group ids handed out by `_next_group_id` in
creation order (used to state uniqueness and monotonicity of group ids). -/
structure RecState where
  sessions : List RecordSession
  active : List Nat
  counter : Nat
  createdIds : List Nat
deriving DecidableEq, Repr

/-- Python exceptions arising in the embedded code: an arbitrary exception
raised by user code (identified by a code so that "propagated unchanged" is
expressible) and `IndexError` from `list.pop` / `list[-1]` on an empty list. -/
inductive PyErr where
  | user (code : Nat)
  | indexError
deriving DecidableEq, Repr

/-- Result of running embedded code: the surviving module-level state plus an
optional in-flight exception (`none` = normal return). -/
structure PyOutcome where
  state : RecState
  exc : Option PyErr
deriving DecidableEq, Repr

/-- A fresh `RecordSession()` as built by `RecordSession.__init__`. -/
def defaultSession : RecordSession := ⟨[], ⟨[]⟩, []⟩

def RecState.getSession (s : RecState) (i : Nat) : RecordSession :=
  s.sessions.getD i defaultSession

def RecState.setSession (s : RecState) (i : Nat) (sess : RecordSession) : RecState :=
  { s with sessions := s.sessions.set i sess }

/-- Lookup in the `_levels` dict. -/
def lookupLevel : List (RecordableFunctionId × RecordLevel) → RecordableFunctionId →
    Option RecordLevel
  | [], _ => none
  | (f, l) :: rest, fid => if f = fid then some l else lookupLevel rest fid

/-- `RecordSession.set_level`: `self._levels[func.id] = level` (dict update:
overwrite in place if present, else append). -/
def set_level_list : List (RecordableFunctionId × RecordLevel) → RecordableFunctionId →
    RecordLevel → List (RecordableFunctionId × RecordLevel)
  | [], fid, lvl => [(fid, lvl)]
  | (f, l) :: rest, fid, lvl =>
    if f = fid then (f, lvl) :: rest else (f, l) :: set_level_list rest fid lvl

def RecordSession.set_level (sess : RecordSession) (level : RecordLevel)
    (func : RecordableFunction) : RecordSession :=
  { sess with levels := set_level_list sess.levels func.id level }

/-- `RecordSession.is_enabled_for`: `fid in self._levels and
level >= self._levels[fid]` (numeric `IntEnum` comparison). -/
def RecordSession.is_enabled_for (sess : RecordSession) (level : RecordLevel)
    (fid : RecordableFunctionId) : Bool :=
  match lookupLevel sess.levels fid with
  | some th => decide (th.value ≤ level.value)
  | none => false

/-- `_next_group_id`: return the current counter value and increment it.  The
returned id is also appended to the specification trace `createdIds`. -/
def next_group_id (s : RecState) : Nat × RecState :=
  (s.counter, { s with counter := s.counter + 1, createdIds := s.createdIds ++ [s.counter] })

/-- `RecordSession._enter_func`: `group = self._record_set.add_group(fid)`
(`RecordSet.add_group` creates `RecordGroup(fid, [])`, drawing the id from
`_next_group_id`, and appends it to `_history`), then
`self._group_stack.append(group)`. -/
def enter_func (i : Nat) (fid : RecordableFunctionId) (s : RecState) : RecState :=
  let p := next_group_id s
  let sess := p.2.getSession i
  p.2.setSession i
    { sess with
      record_set := ⟨sess.record_set.history ++ [⟨fid, [], p.1⟩]⟩,
      group_stack := sess.group_stack ++ [p.1] }

/-- `RecordSet.remove_last_group`: `self._history.pop()` — removes the *last*
group of the history; raises `IndexError` (here `none`) on an empty history. -/
def RecordSet.remove_last_group (rs : RecordSet) : Option RecordSet :=
  match rs.history with
  | [] => none
  | _ :: _ => some ⟨rs.history.dropLast⟩

/-- `RecordSession._exit_func`: `group = self._group_stack.pop()` (raises
`IndexError` on an empty stack), then `if not group.entries:
self._record_set.remove_last_group()`.  The popped group's entries are read
through its id in the history (the Python stack holds the very same object;
an open group is always present in the history in states reachable through
the public API). -/
def exit_func (i : Nat) (s : RecState) : PyOutcome :=
  let sess := s.getSession i
  match sess.group_stack.getLast? with
  | none => ⟨s, some .indexError⟩
  | some gid =>
    let sess1 := { sess with group_stack := sess.group_stack.dropLast }
    let entries :=
      match sess.record_set.history.find? (fun g => decide (g.id = gid)) with
      | some g => g.entries
      | none => []
    if entries = [] then
      match sess1.record_set.remove_last_group with
      | none => ⟨s.setSession i sess1, some .indexError⟩
      | some rs1 => ⟨s.setSession i { sess1 with record_set := rs1 }, none⟩
    else
      ⟨s.setSession i sess1, none⟩

/-- Effect of `RecordSession.handler` on the session itself: append the entry
to the group on top of `_group_stack` (that group also sits in the history;
appending through the alias is modelled by updating the group with that id in
the history). -/
def recordSessApply (sess : RecordSession) (entry : RecordEntry) : RecordSession :=
  match sess.group_stack.getLast? with
  | none => sess
  | some gid =>
    { sess with
      record_set :=
        ⟨sess.record_set.history.map
          (fun g => if g.id = gid then { g with entries := g.entries ++ [entry] } else g)⟩ }

/-- `RecordSession.handler`: build `RecordEntry(level, fid, (key, value))`,
`group = self._group_stack[-1]` (raises `IndexError` on an empty stack),
`group.add_entry(entry)`, then `self._log(entry, group)` (sink output only,
no recording-state effect). -/
def handler (i : Nat) (level : RecordLevel) (fid : RecordableFunctionId)
    (key : String) (value : Int) (s : RecState) : PyOutcome :=
  match (s.getSession i).group_stack.getLast? with
  | none => ⟨s, some .indexError⟩
  | some _ => ⟨s.setSession i (recordSessApply (s.getSession i) ⟨level, fid, (key, value)⟩), none⟩

/-- The loop body of `Recorder.record`: `for session in _active_sessions: if
session.is_enabled_for(level, self._func_id): session.handler(...)`.  An
exception raised by a handler aborts the loop and propagates. -/
def record_loop (fid : RecordableFunctionId) (level : RecordLevel) (key : String)
    (value : Int) : List Nat → RecState → PyOutcome
  | [], s => ⟨s, none⟩
  | i :: rest, s =>
    if (s.getSession i).is_enabled_for level fid then
      match handler i level fid key value s with
      | ⟨s1, none⟩ => record_loop fid level key value rest s1
      | out => out
    else
      record_loop fid level key value rest s

/-- `Recorder.record(level, key, value)` for the recorder with id `fid`. -/
def Recorder.record (fid : RecordableFunctionId) (level : RecordLevel) (key : String)
    (value : Int) (s : RecState) : PyOutcome :=
  record_loop fid level key value s.active s

/-- `Recorder.debug`: `self.record(DEBUG, key, value)`. -/
def Recorder.debug (fid : RecordableFunctionId) (key : String) (value : Int)
    (s : RecState) : PyOutcome :=
  Recorder.record fid .DEBUG key value s

/-- `Recorder.info`: `self.record(INFO, key, value)`. -/
def Recorder.info (fid : RecordableFunctionId) (key : String) (value : Int)
    (s : RecState) : PyOutcome :=
  Recorder.record fid .INFO key value s

/-- First half of `Recorder.start_func`: `for session in _active_sessions:
session._enter_func(self._func_id)`. -/
def enter_loop (fid : RecordableFunctionId) : List Nat → RecState → RecState
  | [], s => s
  | i :: rest, s => enter_loop fid rest (enter_func i fid s)

/-- Second half of `Recorder.start_func`: `for session in _active_sessions:
session._exit_func(self._func_id)`.  An exception aborts the loop. -/
def exit_loop : List Nat → RecState → PyOutcome
  | [], s => ⟨s, none⟩
  | i :: rest, s =>
    match exit_func i s with
    | ⟨s1, none⟩ => exit_loop rest s1
    | out => out

/-- Programs run inside the recording machinery: the body of a recordable
function may record data (through the recorder handed to it, whose id is the
ambient function id), call further recordable functions, sequence actions,
and raise exceptions. -/
inductive Prog where
  | skip
  | throwErr (code : Nat)
  | record (level : RecordLevel) (key : String) (value : Int)
  | call (fid : RecordableFunctionId) (body : Prog)
  | seq (p q : Prog)

/-- Execution.  `Prog.call g body` is the `recordable` wrapper around `body`
combined with `Recorder.start_func`: run `_enter_func` on every active
session, run the body with the recorder for `g`, and on *normal* completion
run `_exit_func` on every active session.  `start_func` is a
`@contextmanager` generator whose `yield` is *not* wrapped in `try/finally`
(recording.py lines 139-147), so when the body raises, the code after
`yield` — the `_exit_func` loop — never runs and the exception propagates
unchanged. -/
def exec : Prog → RecordableFunctionId → RecState → PyOutcome
  | .skip, _, s => ⟨s, none⟩
  | .throwErr c, _, s => ⟨s, some (.user c)⟩
  | .record level key value, fid, s => Recorder.record fid level key value s
  | .call g body, _, s =>
    let s1 := enter_loop g s.active s
    match exec body g s1 with
    | ⟨s2, none⟩ => exit_loop s2.active s2
    | out => out
  | .seq p q, fid, s =>
    match exec p fid s with
    | ⟨s1, none⟩ => exec q fid s1
    | out => out

/-- `RecordSession.start`: `_active_sessions.append(self); yield;
_active_sessions.pop()` — a `@contextmanager` generator without
`try/finally` (recording.py lines 323-328): when the block body raises, the
code after `yield` — the pop — never runs and the exception propagates
unchanged. -/
def RecordSession.start (i : Nat) (body : RecState → PyOutcome) (s : RecState) : PyOutcome :=
  let s1 := { s with active := s.active ++ [i] }
  match body s1 with
  | ⟨s2, none⟩ =>
    match s2.active with
    | [] => ⟨s2, some .indexError⟩
    | _ :: _ => ⟨{ s2 with active := s2.active.dropLast }, none⟩
  | out => out

/-- The value returned by `RecordSet.get_history`: a Python 3 `filter`
*iterator* over `_history`.  An iterator is a one-shot stream: iterating it
consumes it.  Modelled as the list of not-yet-consumed items. -/
structure PyFilterIter where
  remaining : List RecordGroup
deriving DecidableEq, Repr

/-- `RecordSet.get_history(func)`: `filter(lambda g: g.func_id == func.id,
self._history)`. -/
def RecordSet.get_history (rs : RecordSet) (func : RecordableFunction) : PyFilterIter :=
  ⟨rs.history.filter (fun g => decide (g.func_id = func.id))⟩

/-- Fully iterating a `filter` iterator (e.g. `list(it)` or a `for` loop):
yields every remaining item, leaving the iterator exhausted. -/
def PyFilterIter.drain : PyFilterIter → List RecordGroup × PyFilterIter
  | ⟨gs⟩ => (gs, ⟨[]⟩)

/-- The value returned by `RecordSession.get_records`: `self._record_set`,
i.e. the very object owned by the session (assigned once in `__init__`,
never reassigned, never copied).  Modelled as a reference identified by the
session's index; dereferencing reads the current state. -/
structure RecordSetRef where
  sid : Nat
deriving DecidableEq, Repr

def RecordSession.get_records (i : Nat) : RecordSetRef := ⟨i⟩

/-- Reading through a `RecordSet` reference in a given state. -/
def RecordSetRef.read (r : RecordSetRef) (s : RecState) : RecordSet :=
  (s.getSession r.sid).record_set

/-- Total number of entries stored in a session's history. -/
def RecordSession.entryCount (sess : RecordSession) : Nat :=
  (sess.record_set.history.map (fun g => g.entries.length)).sum

/-- Invariant on the group-id trace: ids were handed out in strictly
increasing order, and all of them are below the current counter. -/
def GIdInv (s : RecState) : Prop :=
  s.createdIds.Pairwise (· < ·) ∧ ∀ i ∈ s.createdIds, i < s.counter

/-- Concrete input used by the C4 witness. -/
def c4fid : RecordableFunctionId := ⟨"m", "f", ()⟩

/-- Concrete state used by the C4 witness: one active session with threshold
DEBUG for `c4fid` and one open group. -/
def c4state : RecState :=
  ⟨[⟨[(c4fid, .DEBUG)], ⟨[⟨c4fid, [], 0⟩]⟩, [0]⟩], [0], 1, [0]⟩

/-- Concrete input used by the C9 witness. -/
def c9state : RecState := ⟨[⟨[], ⟨[]⟩, []⟩], [0], 0, []⟩


/-- Claim C1 (code_bug evaluation): the claim states that a Group with zero
Entries at close time is never retained in History, for every call including
an outer call whose body performed nested instrumented calls that retained
non-empty Groups.  The code violates this: `_exit_func` prunes via
`RecordSet.remove_last_group`, which removes the *most recent* group of the
history, not the popped group.  In the failing scenario below, instrumented
A calls instrumented B, B records one admitted entry (retained), A records
nothing; at exit of A the code removes the non-empty B group and retains the
empty A group: the final history is exactly the empty A group. -/
theorem C1_empty_group_pruning_bug :
    exec (.call ⟨"m", "A", ()⟩ (.call ⟨"m", "B", ()⟩ (.record .INFO "k" 1))) ⟨"m", "A", ()⟩
        ⟨[⟨[(⟨"m", "B", ()⟩, .DEBUG)], ⟨[]⟩, []⟩], [0], 0, []⟩ =
      ⟨⟨[⟨[(⟨"m", "B", ()⟩, .DEBUG)], ⟨[⟨⟨"m", "A", ()⟩, [], 0⟩]⟩, []⟩], [0], 2, [0, 1]⟩, none⟩ := by
  decide

/-- Claim C2 (code_bug evaluation): the claim states that when the body of an
instrumented function raises, the Group opened for the call is still popped
from the group stack of every active session and pruned from History if
empty, and the failure propagates unchanged.  `Recorder.start_func` is a
`@contextmanager` generator without `try/finally`, so on a raised failure
the `_exit_func` loop after `yield` never runs: the failure does propagate
unchanged (first conjunct), but the group is left on the group stack (second
conjunct) and the empty group is left in the history (third conjunct). -/
theorem C2_cleanup_on_failure_bug :
    (exec (.call ⟨"m", "f", ()⟩ (.throwErr 7)) ⟨"m", "f", ()⟩
        ⟨[⟨[], ⟨[]⟩, []⟩], [0], 0, []⟩).exc = some (.user 7) ∧
    ((exec (.call ⟨"m", "f", ()⟩ (.throwErr 7)) ⟨"m", "f", ()⟩
        ⟨[⟨[], ⟨[]⟩, []⟩], [0], 0, []⟩).state.getSession 0).group_stack = [0] ∧
    ((exec (.call ⟨"m", "f", ()⟩ (.throwErr 7)) ⟨"m", "f", ()⟩
        ⟨[⟨[], ⟨[]⟩, []⟩], [0], 0, []⟩).state.getSession 0).record_set.history =
      [⟨⟨"m", "f", ()⟩, [], 0⟩] := by
  decide

/-- Claim C3 (code_bug evaluation): the claim states that a session activated
via `RecordSession.start` is popped from the process-wide active list on
exit even when the block body raises.  `RecordSession.start` is a
`@contextmanager` generator without `try/finally`: with a normally
completing body the active list is restored (first conjunct), but when the
body raises, the pop after `yield` never runs and the session stays in the
active list (second conjunct: active list is `[0]`, not the pre-entry
`[]`). -/
theorem C3_active_list_symmetry_bug :
    RecordSession.start 0 (exec .skip ⟨"m", "f", ()⟩) ⟨[⟨[], ⟨[]⟩, []⟩], [], 0, []⟩ =
      ⟨⟨[⟨[], ⟨[]⟩, []⟩], [], 0, []⟩, none⟩ ∧
    RecordSession.start 0 (exec (.throwErr 3) ⟨"m", "f", ()⟩) ⟨[⟨[], ⟨[]⟩, []⟩], [], 0, []⟩ =
      ⟨⟨[⟨[], ⟨[]⟩, []⟩], [0], 0, []⟩, some (.user 3)⟩ := by
  decide

/-- Claim C8 counterexample: the claim states that the value returned by
`RecordSet.get_history` is restartable — iterating the returned value
repeatedly yields the same Groups.  The source returns a Python 3 `filter`
iterator, which is a one-shot stream: on a history containing one matching
group, fully iterating the returned value once yields that group, and
iterating the very same returned value a second time yields nothing, so the
two traversals differ. -/
theorem C8_restartable_counterexample :
    ((RecordSet.get_history ⟨[⟨⟨"m", "f", ()⟩, [], 0⟩]⟩ ⟨⟨"m", "f", ()⟩⟩).drain.2.drain.1 ≠
      (RecordSet.get_history ⟨[⟨⟨"m", "f", ()⟩, [], 0⟩]⟩ ⟨⟨"m", "f", ()⟩⟩).drain.1) := by
  decide

/-- Claim C8 amended: for every RecordSet and recordable function,
`get_history(func)` yields exactly the groups of the history whose `func_id`
equals `func.id`, in history order (first and second conjuncts), but as a
lazy one-shot iterator: each call yields a fresh traversal, while
re-iterating one returned value after it has been consumed yields no groups
(third conjunct). -/
theorem C8_get_history_one_shot (rs : RecordSet) (func : RecordableFunction) :
    (RecordSet.get_history rs func).drain.1 =
      rs.history.filter (fun g => decide (g.func_id = func.id)) ∧
    (∀ g, g ∈ (RecordSet.get_history rs func).drain.1 ↔ g ∈ rs.history ∧ g.func_id = func.id) ∧
    (RecordSet.get_history rs func).drain.2.drain.1 = [] := by
  refine ⟨rfl, ?_, rfl⟩
  intro g
  simp [RecordSet.get_history, PyFilterIter.drain, List.mem_filter]

/-- Claim C10: `RecordSession.get_records` returns the session-owned
`RecordSet` object itself (assigned once in `__init__`, never reassigned or
copied), modelled as a reference identified by the session index.  First
conjunct: reading through the returned reference after any further execution
yields exactly the current record set of that session (live view, for every
program).  Second and third conjuncts: concretely, a reference obtained
before an instrumented call reads an empty history at obtain time and, read
again after the call retained a group, shows that group — the view is live,
not a snapshot, and a second `get_records` call denotes the same
reference. -/
theorem C10_get_records_live :
    (∀ i : Nat, ∀ p : Prog, ∀ fid : RecordableFunctionId, ∀ s : RecState,
      (RecordSession.get_records i).read (exec p fid s).state =
        ((exec p fid s).state.getSession i).record_set) ∧
    (RecordSession.get_records 0).read ⟨[⟨[(⟨"m", "f", ()⟩, .INFO)], ⟨[]⟩, []⟩], [0], 0, []⟩ = ⟨[]⟩ ∧
    (RecordSession.get_records 0).read
        (exec (.call ⟨"m", "f", ()⟩ (.record .INFO "y" 2)) ⟨"m", "f", ()⟩
          ⟨[⟨[(⟨"m", "f", ()⟩, .INFO)], ⟨[]⟩, []⟩], [0], 0, []⟩).state =
      ⟨[⟨⟨"m", "f", ()⟩, [⟨.INFO, ⟨"m", "f", ()⟩, ("y", 2)⟩], 0⟩]⟩ := by
  refine ⟨fun i p fid s => rfl, by decide, by decide⟩

/-- Claim C6: for any instrumented function F (arbitrary module and qualified
name), a session with threshold INFO for F, activated around one call of F
whose body records `("x", 1)` at DEBUG and then `("y", 2)` at INFO, ends
with exactly one group for F in its history, containing exactly one entry
`(INFO, F, ("y", 2))`; the DEBUG record is dropped because
`DEBUG.value < INFO.value`. -/
theorem C6_concrete_scenario (m q : String) :
    RecordSession.start 0
        (exec (.call ⟨m, q, ()⟩ (.seq (.record .DEBUG "x" 1) (.record .INFO "y" 2))) ⟨m, q, ()⟩)
        ⟨[⟨[(⟨m, q, ()⟩, .INFO)], ⟨[]⟩, []⟩], [], 0, []⟩ =
      ⟨⟨[⟨[(⟨m, q, ()⟩, .INFO)], ⟨[⟨⟨m, q, ()⟩, [⟨.INFO, ⟨m, q, ()⟩, ("y", 2)⟩], 0⟩]⟩, []⟩],
        [], 1, [0]⟩, none⟩ := by
  simp [RecordSession.start, exec, enter_loop, enter_func, next_group_id, exit_loop, exit_func,
    Recorder.record, record_loop, handler, recordSessApply, RecordSession.is_enabled_for,
    lookupLevel, RecState.getSession, RecState.setSession,
    RecordSet.remove_last_group, RecordLevel.value]

lemma length_setSession (s : RecState) (i : Nat) (x : RecordSession) :
    (s.setSession i x).sessions.length = s.sessions.length := by
  simp [RecState.setSession]

lemma active_setSession (s : RecState) (i : Nat) (x : RecordSession) :
    (s.setSession i x).active = s.active := rfl

lemma getSession_setSession_self (s : RecState) (i : Nat) (x : RecordSession)
    (h : i < s.sessions.length) : (s.setSession i x).getSession i = x := by
  simp [RecState.setSession, RecState.getSession, List.getD, List.getElem?_set_eq_of_lt, h]

lemma getSession_setSession_ne (s : RecState) (i j : Nat) (x : RecordSession)
    (h : i ≠ j) : (s.setSession i x).getSession j = s.getSession j := by
  simp [RecState.setSession, RecState.getSession, List.getD, List.getElem?_set_ne, h]

lemma recordSessApply_stack (sess : RecordSession) (e : RecordEntry) :
    (recordSessApply sess e).group_stack = sess.group_stack := by
  unfold recordSessApply
  cases sess.group_stack.getLast? <;> rfl

lemma recordSessApply_levels (sess : RecordSession) (e : RecordEntry) :
    (recordSessApply sess e).levels = sess.levels := by
  unfold recordSessApply
  cases sess.group_stack.getLast? <;> rfl

lemma handler_spec (i : Nat) (level : RecordLevel) (fid : RecordableFunctionId)
    (key : String) (value : Int) (s : RecState)
    (h : (s.getSession i).group_stack ≠ []) :
    handler i level fid key value s =
      ⟨s.setSession i (recordSessApply (s.getSession i) ⟨level, fid, (key, value)⟩), none⟩ := by
  unfold handler
  cases hg : (s.getSession i).group_stack.getLast? with
  | none => exact absurd (List.getLast?_eq_none_iff.mp hg) h
  | some gid => rfl

lemma record_loop_cons_pos (fid : RecordableFunctionId) (level : RecordLevel) (key : String)
    (value : Int) (i : Nat) (rest : List Nat) (s : RecState)
    (he : (s.getSession i).is_enabled_for level fid = true)
    (hstk : (s.getSession i).group_stack ≠ []) :
    record_loop fid level key value (i :: rest) s =
      record_loop fid level key value rest
        (s.setSession i (recordSessApply (s.getSession i) ⟨level, fid, (key, value)⟩)) := by
  conv_lhs => rw [record_loop]
  rw [if_pos he, handler_spec i level fid key value s hstk]

lemma record_loop_cons_neg (fid : RecordableFunctionId) (level : RecordLevel) (key : String)
    (value : Int) (i : Nat) (rest : List Nat) (s : RecState)
    (he : (s.getSession i).is_enabled_for level fid = false) :
    record_loop fid level key value (i :: rest) s = record_loop fid level key value rest s := by
  conv_lhs => rw [record_loop]
  rw [if_neg (by simp [he])]

lemma record_loop_spec (fid : RecordableFunctionId) (level : RecordLevel) (key : String)
    (value : Int) (L : List Nat) :
    ∀ s : RecState, L.Nodup → (∀ i ∈ L, i < s.sessions.length) →
      (∀ i ∈ L, (s.getSession i).group_stack ≠ []) →
      (record_loop fid level key value L s).exc = none ∧
      (∀ j, j ∉ L →
        (record_loop fid level key value L s).state.getSession j = s.getSession j) ∧
      (∀ j ∈ L,
        (record_loop fid level key value L s).state.getSession j =
          (if (s.getSession j).is_enabled_for level fid then
            recordSessApply (s.getSession j) ⟨level, fid, (key, value)⟩
          else s.getSession j)) ∧
      (record_loop fid level key value L s).state.sessions.length = s.sessions.length ∧
      (record_loop fid level key value L s).state.active = s.active := by
  induction L with
  | nil =>
    intro s _ _ _
    exact ⟨rfl, fun j _ => rfl, fun j hj => absurd hj (List.not_mem_nil j), rfl, rfl⟩
  | cons i rest ih =>
    intro s hnd hlen hstk
    have hi : i < s.sessions.length := hlen i (List.mem_cons_self i rest)
    have hsi : (s.getSession i).group_stack ≠ [] := hstk i (List.mem_cons_self i rest)
    have hirest : i ∉ rest := (List.nodup_cons.mp hnd).1
    have hnd' : rest.Nodup := (List.nodup_cons.mp hnd).2
    by_cases he : (s.getSession i).is_enabled_for level fid = true
    · rw [record_loop_cons_pos fid level key value i rest s he hsi]
      set s1 := s.setSession i (recordSessApply (s.getSession i) ⟨level, fid, (key, value)⟩)
        with hs1
      have hget1 : ∀ j, j ≠ i → s1.getSession j = s.getSession j := by
        intro j hj
        exact getSession_setSession_ne s i j _ (fun hij => hj hij.symm)
      have hgeti : s1.getSession i = recordSessApply (s.getSession i) ⟨level, fid, (key, value)⟩ :=
        getSession_setSession_self s i _ hi
      have hlen1 : s1.sessions.length = s.sessions.length := length_setSession s i _
      obtain ⟨e1, e2, e3, e4, e5⟩ := ih s1 hnd'
        (fun j hj => hlen1 ▸ hlen j (List.mem_cons_of_mem i hj))
        (fun j hj => by
          rw [hget1 j (fun hji => hirest (hji ▸ hj))]
          exact hstk j (List.mem_cons_of_mem i hj))
      refine ⟨e1, ?_, ?_, by rw [e4, hlen1], by rw [e5, hs1, active_setSession]⟩
      · intro j hj
        have hjrest : j ∉ rest := fun h => hj (List.mem_cons_of_mem i h)
        have hji : j ≠ i := fun h => hj (h ▸ List.mem_cons_self i rest)
        rw [e2 j hjrest, hget1 j hji]
      · intro j hj
        rcases List.mem_cons.mp hj with hj | hj
        · subst hj
          rw [e2 j hirest, hgeti, if_pos he]
        · have hji : j ≠ i := fun h => hirest (h ▸ hj)
          rw [e3 j hj, hget1 j hji]
    · have he' : (s.getSession i).is_enabled_for level fid = false :=
        Bool.eq_false_iff.mpr he
      rw [record_loop_cons_neg fid level key value i rest s he']
      obtain ⟨e1, e2, e3, e4, e5⟩ := ih s hnd'
        (fun j hj => hlen j (List.mem_cons_of_mem i hj))
        (fun j hj => hstk j (List.mem_cons_of_mem i hj))
      refine ⟨e1, ?_, ?_, e4, e5⟩
      · intro j hj
        exact e2 j (fun h => hj (List.mem_cons_of_mem i h))
      · intro j hj
        rcases List.mem_cons.mp hj with hj | hj
        · subst hj
          rw [e2 j hirest, if_neg (by simp [he'])]
        · exact e3 j hj

lemma sum_lengths_map (l : List RecordGroup) (gid : Nat) (e : RecordEntry) :
    ((l.map (fun g => if g.id = gid then { g with entries := g.entries ++ [e] } else g)).map
        (fun g => g.entries.length)).sum
      = (l.map (fun g => g.entries.length)).sum + l.countP (fun g => decide (g.id = gid)) := by
  induction l with
  | nil => simp
  | cons hd tl ih =>
    rw [List.map_cons, List.map_cons, List.map_cons, List.sum_cons, List.sum_cons,
      List.countP_cons, ih]
    by_cases h : hd.id = gid <;> simp [h] <;> omega

lemma entryCount_recordSessApply (sess : RecordSession) (e : RecordEntry) (gid : Nat)
    (hg : sess.group_stack.getLast? = some gid)
    (hc : sess.record_set.history.countP (fun g => decide (g.id = gid)) = 1) :
    (recordSessApply sess e).entryCount = sess.entryCount + 1 := by
  unfold recordSessApply RecordSession.entryCount
  rw [hg]
  simp only []
  rw [sum_lengths_map sess.record_set.history gid e, hc]

lemma is_enabled_for_iff (sess : RecordSession) (level : RecordLevel)
    (fid : RecordableFunctionId) :
    sess.is_enabled_for level fid = true ↔
      ∃ th, lookupLevel sess.levels fid = some th ∧ th.value ≤ level.value := by
  unfold RecordSession.is_enabled_for
  cases h : lookupLevel sess.levels fid <;> simp [h]

/-- Claim C4: for every state, every active session `sid` (well-formed: in
bounds, no duplicate activation, all active sessions have an open group, the
top group of `sid` occurs exactly once in its history), every level, key,
value and function id: `Recorder.record` completes normally, admission holds
iff a threshold is configured for the id in that session and
`level >= threshold` (second conjunct), an admitted record appends exactly
one entry to that session (third conjunct), a non-admitted record leaves the
session unchanged (fourth conjunct), and with no configured threshold the
session is always unchanged (fifth conjunct). -/
theorem C4_record_admission (s : RecState) (sid : Nat) (fid : RecordableFunctionId)
    (level : RecordLevel) (key : String) (value : Int)
    (hmem : sid ∈ s.active) (hnd : s.active.Nodup)
    (hlen : ∀ i ∈ s.active, i < s.sessions.length)
    (hstk : ∀ i ∈ s.active, (s.getSession i).group_stack ≠ [])
    (hc : (s.getSession sid).record_set.history.countP
        (fun g => decide (g.id = (s.getSession sid).group_stack.getLast?.getD 0)) = 1) :
    (Recorder.record fid level key value s).exc = none ∧
    ((s.getSession sid).is_enabled_for level fid = true ↔
      ∃ th, lookupLevel (s.getSession sid).levels fid = some th ∧ th.value ≤ level.value) ∧
    ((s.getSession sid).is_enabled_for level fid = true →
      ((Recorder.record fid level key value s).state.getSession sid).entryCount =
        (s.getSession sid).entryCount + 1) ∧
    ((s.getSession sid).is_enabled_for level fid = false →
      (Recorder.record fid level key value s).state.getSession sid = s.getSession sid) ∧
    (lookupLevel (s.getSession sid).levels fid = none →
      (Recorder.record fid level key value s).state.getSession sid = s.getSession sid) := by
  obtain ⟨e1, _, e3, _, _⟩ := record_loop_spec fid level key value s.active s hnd hlen hstk
  have hmain := e3 sid hmem
  have hnone : lookupLevel (s.getSession sid).levels fid = none →
      (s.getSession sid).is_enabled_for level fid = false := by
    intro h
    unfold RecordSession.is_enabled_for
    rw [h]
  refine ⟨e1, is_enabled_for_iff _ _ _, ?_, ?_, ?_⟩
  · intro he
    rw [show Recorder.record fid level key value s = record_loop fid level key value s.active s
        from rfl, hmain, if_pos he]
    obtain ⟨gid, hg⟩ : ∃ gid, (s.getSession sid).group_stack.getLast? = some gid := by
      cases hgl : (s.getSession sid).group_stack.getLast? with
      | none => exact absurd (List.getLast?_eq_none_iff.mp hgl) (hstk sid hmem)
      | some gid => exact ⟨gid, rfl⟩
    refine entryCount_recordSessApply _ _ gid hg ?_
    rw [hg] at hc
    simpa using hc
  · intro he
    rw [show Recorder.record fid level key value s = record_loop fid level key value s.active s
        from rfl, hmain, if_neg (by simp [he])]
  · intro h
    rw [show Recorder.record fid level key value s = record_loop fid level key value s.active s
        from rfl, hmain, if_neg (by simp [hnone h])]

/-- Witness for C4. -/
theorem C4_record_admission_witness :
    ((0 : Nat) ∈ c4state.active ∧ c4state.active.Nodup ∧
      (∀ i ∈ c4state.active, i < c4state.sessions.length) ∧
      (∀ i ∈ c4state.active, (c4state.getSession i).group_stack ≠ []) ∧
      (c4state.getSession 0).record_set.history.countP
        (fun g => decide (g.id = (c4state.getSession 0).group_stack.getLast?.getD 0)) = 1) ∧
    ((Recorder.record c4fid .INFO "k" 3 c4state).exc = none ∧
      ((c4state.getSession 0).is_enabled_for .INFO c4fid = true ↔
        ∃ th, lookupLevel (c4state.getSession 0).levels c4fid = some th ∧
          th.value ≤ RecordLevel.value .INFO) ∧
      ((c4state.getSession 0).is_enabled_for .INFO c4fid = true →
        ((Recorder.record c4fid .INFO "k" 3 c4state).state.getSession 0).entryCount =
          (c4state.getSession 0).entryCount + 1) ∧
      ((c4state.getSession 0).is_enabled_for .INFO c4fid = false →
        (Recorder.record c4fid .INFO "k" 3 c4state).state.getSession 0 =
          c4state.getSession 0) ∧
      (lookupLevel (c4state.getSession 0).levels c4fid = none →
        (Recorder.record c4fid .INFO "k" 3 c4state).state.getSession 0 =
          c4state.getSession 0)) :=
  ⟨⟨by decide, by decide, by decide, by decide, by decide⟩,
    C4_record_admission c4state 0 c4fid .INFO "k" 3 (by decide) (by decide) (by decide)
      (by decide) (by decide)⟩

/-- Claim C5: attribution under nesting.  For arbitrary instrumented functions
A and B, starting from a session with any threshold table that admits `lvl`
for B, after entering A and then entering B (exactly what executing A whose
body calls B does before the record), a `record` through the recorder of B
appends the entry to the B group (id 1, top of the stack) and not to the A
group (id 0), even though the A group is still open on the stack (the final
group stack is `[0, 1]`). -/
theorem C5_nested_attribution (mA qA mB qB : String)
    (L : List (RecordableFunctionId × RecordLevel)) (th lvl : RecordLevel)
    (k : String) (v : Int)
    (hlook : lookupLevel L ⟨mB, qB, ()⟩ = some th) (hadm : th.value ≤ lvl.value) :
    Recorder.record ⟨mB, qB, ()⟩ lvl k v
        (enter_loop ⟨mB, qB, ()⟩ [0]
          (enter_loop ⟨mA, qA, ()⟩ [0] ⟨[⟨L, ⟨[]⟩, []⟩], [0], 0, []⟩)) =
      ⟨⟨[⟨L, ⟨[⟨⟨mA, qA, ()⟩, [], 0⟩, ⟨⟨mB, qB, ()⟩, [⟨lvl, ⟨mB, qB, ()⟩, (k, v)⟩], 1⟩]⟩,
          [0, 1]⟩], [0], 2, [0, 1]⟩, none⟩ := by
  simp [Recorder.record, record_loop, handler, recordSessApply, RecordSession.is_enabled_for,
    enter_loop, enter_func, next_group_id, RecState.getSession, RecState.setSession, hlook,
    hadm, lookupLevel]

/-- Witness for C5. -/
theorem C5_nested_attribution_witness :
    (lookupLevel [(⟨"m", "B", ()⟩, .DEBUG)] ⟨"m", "B", ()⟩ = some .DEBUG ∧
      RecordLevel.value .DEBUG ≤ RecordLevel.value .INFO) ∧
    Recorder.record ⟨"m", "B", ()⟩ .INFO "k" 1
        (enter_loop ⟨"m", "B", ()⟩ [0]
          (enter_loop ⟨"m", "A", ()⟩ [0]
            ⟨[⟨[(⟨"m", "B", ()⟩, .DEBUG)], ⟨[]⟩, []⟩], [0], 0, []⟩)) =
      ⟨⟨[⟨[(⟨"m", "B", ()⟩, .DEBUG)],
          ⟨[⟨⟨"m", "A", ()⟩, [], 0⟩,
            ⟨⟨"m", "B", ()⟩, [⟨.INFO, ⟨"m", "B", ()⟩, ("k", 1)⟩], 1⟩]⟩, [0, 1]⟩],
        [0], 2, [0, 1]⟩, none⟩ :=
  ⟨⟨by decide, by decide⟩,
    C5_nested_attribution "m" "A" "m" "B" [(⟨"m", "B", ()⟩, .DEBUG)] .DEBUG .INFO "k" 1
      (by decide) (by decide)⟩

/-- Claim C7: fan-out.  With exactly two sessions simultaneously active, each
configured with a threshold admitting `lvl` for the instrumented function,
one call whose body performs exactly one record at `lvl` produces exactly
one entry in each session history and exactly two groups in total, one per
session (ids 0 and 1). -/
theorem C7_fan_out (m q : String) (lvl th0 th1 : RecordLevel)
    (h0 : th0.value ≤ lvl.value) (h1 : th1.value ≤ lvl.value) :
    exec (.call ⟨m, q, ()⟩ (.record lvl "k" 5)) ⟨m, q, ()⟩
        ⟨[⟨[(⟨m, q, ()⟩, th0)], ⟨[]⟩, []⟩, ⟨[(⟨m, q, ()⟩, th1)], ⟨[]⟩, []⟩], [0, 1], 0, []⟩ =
      ⟨⟨[⟨[(⟨m, q, ()⟩, th0)], ⟨[⟨⟨m, q, ()⟩, [⟨lvl, ⟨m, q, ()⟩, ("k", 5)⟩], 0⟩]⟩, []⟩,
         ⟨[(⟨m, q, ()⟩, th1)], ⟨[⟨⟨m, q, ()⟩, [⟨lvl, ⟨m, q, ()⟩, ("k", 5)⟩], 1⟩]⟩, []⟩],
        [0, 1], 2, [0, 1]⟩, none⟩ := by
  simp [exec, enter_loop, enter_func, next_group_id, exit_loop, exit_func, Recorder.record,
    record_loop, handler, recordSessApply, RecordSession.is_enabled_for, lookupLevel,
    RecState.getSession, RecState.setSession, RecordSet.remove_last_group, h0, h1]

/-- Witness for C7. -/
theorem C7_fan_out_witness :
    (RecordLevel.value .DEBUG ≤ RecordLevel.value .INFO ∧
      RecordLevel.value .DEBUG ≤ RecordLevel.value .INFO) ∧
    exec (.call ⟨"m", "f", ()⟩ (.record .INFO "k" 5)) ⟨"m", "f", ()⟩
        ⟨[⟨[(⟨"m", "f", ()⟩, .DEBUG)], ⟨[]⟩, []⟩, ⟨[(⟨"m", "f", ()⟩, .DEBUG)], ⟨[]⟩, []⟩],
          [0, 1], 0, []⟩ =
      ⟨⟨[⟨[(⟨"m", "f", ()⟩, .DEBUG)],
          ⟨[⟨⟨"m", "f", ()⟩, [⟨.INFO, ⟨"m", "f", ()⟩, ("k", 5)⟩], 0⟩]⟩, []⟩,
         ⟨[(⟨"m", "f", ()⟩, .DEBUG)],
          ⟨[⟨⟨"m", "f", ()⟩, [⟨.INFO, ⟨"m", "f", ()⟩, ("k", 5)⟩], 1⟩]⟩, []⟩],
        [0, 1], 2, [0, 1]⟩, none⟩ :=
  ⟨⟨by decide, by decide⟩,
    C7_fan_out "m" "f" .INFO .DEBUG .DEBUG (by decide) (by decide)⟩

lemma enter_func_ghost (i : Nat) (fid : RecordableFunctionId) (s : RecState) :
    (enter_func i fid s).createdIds = s.createdIds ++ [s.counter] ∧
    (enter_func i fid s).counter = s.counter + 1 :=
  ⟨rfl, rfl⟩

lemma GIdInv_congr (s s' : RecState) (hc : s'.counter = s.counter)
    (hl : s'.createdIds = s.createdIds) (h : GIdInv s) : GIdInv s' := by
  unfold GIdInv at h ⊢
  rw [hc, hl]
  exact h

lemma GIdInv_enter_func (i : Nat) (fid : RecordableFunctionId) (s : RecState)
    (h : GIdInv s) : GIdInv (enter_func i fid s) := by
  obtain ⟨h1, h2⟩ := h
  constructor
  · rw [(enter_func_ghost i fid s).1, List.pairwise_append]
    refine ⟨h1, List.pairwise_singleton _ _, ?_⟩
    intro a ha b hb
    rw [List.mem_singleton] at hb
    subst hb
    exact h2 a ha
  · rw [(enter_func_ghost i fid s).1, (enter_func_ghost i fid s).2]
    intro j hj
    rcases List.mem_append.mp hj with hj | hj
    · exact Nat.lt_succ_of_lt (h2 j hj)
    · rw [List.mem_singleton] at hj
      subst hj
      exact Nat.lt_succ_self _

lemma GIdInv_enter_loop (fid : RecordableFunctionId) (L : List Nat) :
    ∀ s : RecState, GIdInv s → GIdInv (enter_loop fid L s) := by
  induction L with
  | nil => intro s h; exact h
  | cons i rest ih => intro s h; exact ih _ (GIdInv_enter_func i fid s h)

lemma handler_ghost (i : Nat) (level : RecordLevel) (fid : RecordableFunctionId)
    (key : String) (value : Int) (s : RecState) :
    (handler i level fid key value s).state.counter = s.counter ∧
    (handler i level fid key value s).state.createdIds = s.createdIds := by
  unfold handler
  cases (s.getSession i).group_stack.getLast? <;> exact ⟨rfl, rfl⟩

lemma exit_func_ghost (i : Nat) (s : RecState) :
    (exit_func i s).state.counter = s.counter ∧
    (exit_func i s).state.createdIds = s.createdIds := by
  unfold exit_func
  refine ⟨?_, ?_⟩ <;>
    (dsimp only; split
     · rfl
     · split
       · split <;> rfl
       · rfl)

lemma record_loop_ghost (fid : RecordableFunctionId) (level : RecordLevel) (key : String)
    (value : Int) (L : List Nat) :
    ∀ s : RecState, (record_loop fid level key value L s).state.counter = s.counter ∧
      (record_loop fid level key value L s).state.createdIds = s.createdIds := by
  induction L with
  | nil => intro s; exact ⟨rfl, rfl⟩
  | cons i rest ih =>
    intro s
    rw [record_loop]
    by_cases he : (s.getSession i).is_enabled_for level fid = true
    · rw [if_pos he]
      rcases hh : handler i level fid key value s with ⟨s1, e⟩
      have hg := handler_ghost i level fid key value s
      rw [hh] at hg
      cases e with
      | none =>
        dsimp only
        rw [(ih s1).1, (ih s1).2, hg.1, hg.2]
        exact ⟨rfl, rfl⟩
      | some err => exact ⟨hg.1, hg.2⟩
    · rw [if_neg he]
      exact ih s

lemma exit_loop_ghost (L : List Nat) :
    ∀ s : RecState, (exit_loop L s).state.counter = s.counter ∧
      (exit_loop L s).state.createdIds = s.createdIds := by
  induction L with
  | nil => intro s; exact ⟨rfl, rfl⟩
  | cons i rest ih =>
    intro s
    rw [exit_loop]
    rcases hx : exit_func i s with ⟨s1, e⟩
    have hg := exit_func_ghost i s
    rw [hx] at hg
    cases e with
    | none =>
      dsimp only
      rw [(ih s1).1, (ih s1).2, hg.1, hg.2]
      exact ⟨rfl, rfl⟩
    | some err => exact ⟨hg.1, hg.2⟩

lemma exec_gid_inv (p : Prog) : ∀ (fid : RecordableFunctionId) (s : RecState),
    GIdInv s → GIdInv (exec p fid s).state := by
  induction p with
  | skip => intro fid s h; exact h
  | throwErr c => intro fid s h; exact h
  | record level key value =>
    intro fid s h
    have hg := record_loop_ghost fid level key value s.active s
    exact GIdInv_congr s _ hg.1 hg.2 h
  | call g body ihb =>
    intro fid s h
    rw [exec]
    have h1 : GIdInv (enter_loop g s.active s) := GIdInv_enter_loop g s.active s h
    rcases hb : exec body g (enter_loop g s.active s) with ⟨s2, e⟩
    have h2 : GIdInv s2 := by
      have := ihb g (enter_loop g s.active s) h1
      rw [hb] at this
      exact this
    cases e with
    | none =>
      dsimp only
      have hg := exit_loop_ghost s2.active s2
      exact GIdInv_congr s2 _ hg.1 hg.2 h2
    | some err => exact h2
  | seq p q ihp ihq =>
    intro fid s h
    rw [exec]
    rcases hp : exec p fid s with ⟨s1, e⟩
    have h1 : GIdInv s1 := by
      have := ihp fid s h
      rw [hp] at this
      exact this
    cases e with
    | none => exact ihq fid s1 h1
    | some err => exact h1

/-- Claim C9: group ids come from the thread-local counter.  For the trace of
ids handed out during any single-threaded execution: if the trace so far is
strictly increasing and bounded by the counter, it stays so after executing
any program, hence the assigned ids are strictly increasing in creation
order and pairwise distinct, even across different sessions (the counter and
trace are shared by all sessions of the thread); moreover each group
creation assigns exactly the current counter value and increments the
counter. -/
theorem C9_group_ids_strictly_increasing (p : Prog) (fid : RecordableFunctionId)
    (s : RecState) (h : GIdInv s) :
    GIdInv (exec p fid s).state ∧
    (exec p fid s).state.createdIds.Pairwise (· < ·) ∧
    (exec p fid s).state.createdIds.Nodup ∧
    (∀ i g, (enter_func i g s).createdIds = s.createdIds ++ [s.counter] ∧
      (enter_func i g s).counter = s.counter + 1) := by
  have hg := exec_gid_inv p fid s h
  exact ⟨hg, hg.1, hg.1.imp (fun hlt => Nat.ne_of_lt hlt),
    fun i g => enter_func_ghost i g s⟩

/-- Witness for C9. -/
theorem C9_group_ids_witness :
    GIdInv c9state ∧
    (GIdInv (exec (.call ⟨"m", "f", ()⟩ .skip) ⟨"m", "f", ()⟩ c9state).state ∧
      (exec (.call ⟨"m", "f", ()⟩ .skip) ⟨"m", "f", ()⟩ c9state).state.createdIds.Pairwise
        (· < ·) ∧
      (exec (.call ⟨"m", "f", ()⟩ .skip) ⟨"m", "f", ()⟩ c9state).state.createdIds.Nodup ∧
      (∀ i g, (enter_func i g c9state).createdIds = c9state.createdIds ++ [c9state.counter] ∧
        (enter_func i g c9state).counter = c9state.counter + 1)) :=
  ⟨⟨List.Pairwise.nil, fun i hi => absurd hi (List.not_mem_nil i)⟩,
    C9_group_ids_strictly_increasing (.call ⟨"m", "f", ()⟩ .skip) ⟨"m", "f", ()⟩ c9state
      ⟨List.Pairwise.nil, fun i hi => absurd hi (List.not_mem_nil i)⟩⟩
